import Mathlib

/-!
Shallow embedding of the lumina-client data-access core:
the query URL builder (`buildQueryUrl` in src/hooks/useModel.js), the
single-resource URL builder realized by `useModelShow`'s query function,
the pagination-metadata extractor (`extractPaginationFromHeaders` in
src/lib/pagination.js), and the nested-operations batch executor
(`useNestedOperations` in src/hooks/useModel.js).

JavaScript strings are modelled by Lean `String`, absent values by
`Option`, thrown errors by `Except`, and JS numbers that the code only
ever treats integrally by `Int`.
-/

/-! ## String helpers (JS semantics) -/

/-- Whitespace characters removed by JS `String.prototype.trim` and skipped
by `parseInt` (the ASCII subset, which is all the code can receive in
HTTP header values and tenant slugs). -/
def isJsSpace (c : Char) : Bool :=
  c = ' ' || c = '\t' || c = '\n' || c = '\r' || c = '\x0b' || c = '\x0c'

/-- JS `String.prototype.trim`: strip leading and trailing whitespace. -/
def jsTrim (s : String) : String :=
  ⟨((s.data.dropWhile isJsSpace).reverse.dropWhile isJsSpace).reverse⟩

/-- Numeric value of a digit string (assumes all characters are digits). -/
def digitsVal (ds : List Char) : Nat :=
  ds.foldl (fun a c => a * 10 + (c.toNat - '0'.toNat)) 0

/-- JS `parseInt(s, 10)`: skip leading whitespace, read an optional sign,
then the longest prefix of decimal digits; `none` (NaN) when no digit is
consumed, otherwise the signed value, ignoring any trailing garbage. -/
def jsParseInt (s : String) : Option Int :=
  let cs := s.data.dropWhile isJsSpace
  match cs with
  | '-' :: rest =>
    let ds := rest.takeWhile Char.isDigit
    if ds = [] then none else some (-(digitsVal ds : Int))
  | '+' :: rest =>
    let ds := rest.takeWhile Char.isDigit
    if ds = [] then none else some (digitsVal ds : Int)
  | _ =>
    let ds := cs.takeWhile Char.isDigit
    if ds = [] then none else some (digitsVal ds : Int)

/-- JS `array.join(sep)`: elements interleaved with the separator,
empty string for the empty array. -/
def joinSep (sep : String) : List String → String
  | [] => ""
  | [x] => x
  | x :: y :: xs => x ++ sep ++ joinSep sep (y :: xs)

/-! ## URLSearchParams serialization

`URLSearchParams.toString()` produces `application/x-www-form-urlencoded`
output: every key and value is percent-encoded (space as `+`,
alphanumerics and `*-._` kept, all other characters as uppercase `%XX`
per UTF-8 byte), pairs are `k=v` joined by `&`. -/

/-- Uppercase hexadecimal digit for a value below 16. -/
def hexDigit (n : Nat) : Char :=
  if n < 10 then Char.ofNat ('0'.toNat + n) else Char.ofNat ('A'.toNat + n - 10)

/-- `%XX` escape of one byte, uppercase hex. -/
def percentByte (b : Nat) : String :=
  "%" ++ String.singleton (hexDigit (b / 16)) ++ String.singleton (hexDigit (b % 16))

/-- UTF-8 bytes of one character. -/
def utf8Bytes (c : Char) : List Nat :=
  let n := c.toNat
  if n < 0x80 then [n]
  else if n < 0x800 then [0xC0 + n / 0x40, 0x80 + n % 0x40]
  else if n < 0x10000 then
    [0xE0 + n / 0x1000, 0x80 + (n / 0x40) % 0x40, 0x80 + n % 0x40]
  else
    [0xF0 + n / 0x40000, 0x80 + (n / 0x1000) % 0x40,
     0x80 + (n / 0x40) % 0x40, 0x80 + n % 0x40]

/-- Concatenate a list of strings. -/
def concatAll : List String → String
  | [] => ""
  | s :: xs => s ++ concatAll xs

/-- `application/x-www-form-urlencoded` encoding of one character. -/
def encodeChar (c : Char) : String :=
  if c = ' ' then "+"
  else if c.isAlphanum || c = '*' || c = '-' || c = '.' || c = '_' then
    String.singleton c
  else concatAll ((utf8Bytes c).map percentByte)

/-- `application/x-www-form-urlencoded` encoding of a string. -/
def formEncode (s : String) : String :=
  concatAll (s.data.map encodeChar)

/-- `URLSearchParams.toString()` on an ordered list of key/value pairs. -/
def serializeParams (ps : List (String × String)) : String :=
  joinSep "&" (ps.map (fun p => formEncode p.1 ++ "=" ++ formEncode p.2))

/-! ## Data model -/

/-- Query options accepted by the list-style hooks
(src/hooks/useModel.js, `buildQueryUrl`).  Scalar filter values are
modelled by their string form (URLSearchParams stringifies them anyway);

`page`, `perPage`, `per_page` are the JS numbers the caller supplies. -/
structure QueryOptions where
  filters : List (String × String) := []
  includes : List String := []
  sort : Option String := none
  fields : List String := []
  search : Option String := none
  page : Option Int := none
  perPage : Option Int := none
  per_page : Option Int := none
deriving DecidableEq

/-- The options value `{}`. -/
def QueryOptions.empty : QueryOptions := {}

/-- Error taxonomy surfaced by the URL builders: the code throws
`Error('Organization slug is required...')` for a missing/empty tenant,
which the specification names `ConfigurationError`. -/
inductive UrlError where
  | configurationError : String → UrlError
deriving DecidableEq

/-- Pagination metadata object (src/lib/pagination.js). -/
structure PaginationMeta where
  currentPage : Int
  lastPage : Int
  perPage : Int
  total : Int
deriving DecidableEq

/-- The four header lookups performed by `extractPaginationFromHeaders`:
`response.headers['x-current-page' | 'x-last-page' | 'x-per-page' |
'x-total']`, each `none` when the header is missing. -/
structure Headers where
  currentPage : Option String := none
  lastPage : Option String := none
  perPage : Option String := none
  total : Option String := none
deriving DecidableEq

/-- One step of a nested-operations batch
(src/hooks/useModel.js, `useNestedOperations`).  `data` is a flat map of
field name to scalar value in its string form. -/
structure NestedOperation where
  action : String
  model : String
  id : Option String := none
  data : List (String × String) := []
deriving DecidableEq

/-- The request the nested-operations mutation hands to the transport:
`api.post(url, { operations })`. -/
structure BatchRequest where
  url : String
  operations : List NestedOperation
deriving DecidableEq

/-- Error taxonomy of the batch executor per the specification.  The
source's mutation function contains no throw at all; the type exists so
that the validation behaviour claimed by the specification is statable. -/
inductive BatchError where
  | invalidReference : String → BatchError
deriving DecidableEq

/-! ## Pagination extractor (src/lib/pagination.js) -/

/-- JS truthiness of an optional header string: `undefined` and `""` are
falsy, all other strings truthy. -/
def jsTruthyStr : Option String → Bool
  | none => false
  | some s => !(s == "")

/-- `parseInt(v, 10) || d`: the parsed value unless the parse yields NaN
(including `v` absent, where `parseInt(undefined, 10)` is NaN) or yields
`0`, in which case the default `d`. -/
def jsIntOr (o : Option String) (d : Int) : Int :=
  match o with
  | none => d
  | some s =>
    match jsParseInt s with
    | none => d
    | some n => if n = 0 then d else n

/-- `extractPaginationFromHeaders` (src/lib/pagination.js:47-64): read the
four headers; return `null` when all four are falsy; otherwise build the
metadata with `parseInt(value, 10) || default` per field. -/
def extractPaginationFromHeaders (r : Headers) : Option PaginationMeta :=
  if !jsTruthyStr r.currentPage && !jsTruthyStr r.lastPage
      && !jsTruthyStr r.perPage && !jsTruthyStr r.total then
    none
  else
    some {
      currentPage := jsIntOr r.currentPage 1
      lastPage := jsIntOr r.lastPage 1
      perPage := jsIntOr r.perPage 15
      total := jsIntOr r.total 0
    }

/-! ## Query URL builder (src/hooks/useModel.js, buildQueryUrl) -/

/-- JS truthiness of an optional number: `undefined`, `0` falsy. -/
def truthyInt : Option Int → Bool
  | none => false
  | some n => !(n == 0)

/-- JS `a || b` on optional numbers. -/
def jsOrInt (a b : Option Int) : Option Int :=
  if truthyInt a then a else b

/-- The ordered key/value pairs appended to `URLSearchParams` by
`buildQueryUrl` (src/hooks/useModel.js:23-56): filters, include, sort,
fields, search, page, per_page, each group only when its JS guard is
truthy. -/
def queryParams (o : QueryOptions) : List (String × String) :=
  (o.filters.map (fun kv => ("filter[" ++ kv.1 ++ "]", kv.2)))
  ++ (if o.includes.isEmpty then [] else [("include", joinSep "," o.includes)])
  ++ (match o.sort with
      | none => []
      | some s => if s = "" then [] else [("sort", s)])
  ++ (if o.fields.isEmpty then [] else [("fields", joinSep "," o.fields)])
  ++ (match o.search with
      | none => []
      | some s => if s = "" then [] else [("search", s)])
  ++ (match o.page with
      | none => []
      | some n => if n = 0 then [] else [("page", toString n)])
  ++ (match jsOrInt o.perPage o.per_page with
      | none => []
      | some n => if n = 0 then [] else [("per_page", toString n)])

/-- `buildQueryUrl(model, organization, options)`
(src/hooks/useModel.js:9-60): reject a falsy or whitespace-only tenant,
then `/<tenant>/<model>` plus the serialized params, with no `?` when no
parameter was appended. -/
def buildQueryUrl (model organization : String) (options : QueryOptions) :
    Except UrlError String :=
  if organization = "" then
    Except.error (UrlError.configurationError "Organization slug is required")
  else if jsTrim organization = "" then
    Except.error (UrlError.configurationError
      "Organization slug is required and must be a non-empty string")
  else
    let url := "/" ++ jsTrim organization ++ "/" ++ model
    let qs := serializeParams (queryParams options)
    Except.ok (if qs = "" then url else url ++ "?" ++ qs)

/-! ## Single-resource URL builder (useModelShow query function) -/

/-- The ordered key/value pairs appended by `useModelShow`'s query
function (src/hooks/useModel.js:166-180): include first, then filters,
sort, fields; no search or pagination group is ever read. -/
def resourceParams (o : QueryOptions) : List (String × String) :=
  (if o.includes.isEmpty then [] else [("include", joinSep "," o.includes)])
  ++ (o.filters.map (fun kv => ("filter[" ++ kv.1 ++ "]", kv.2)))
  ++ (match o.sort with
      | none => []
      | some s => if s = "" then [] else [("sort", s)])
  ++ (if o.fields.isEmpty then [] else [("fields", joinSep "," o.fields)])

/-- `buildResourceUrl`, realized by `useModelShow`'s query function
(src/hooks/useModel.js:157-193): reject a whitespace-only tenant, then
`/<tenant>/<model>/<id>` plus the serialized params. -/
def buildResourceUrl (model id organization : String) (options : QueryOptions) :
    Except UrlError String :=
  if jsTrim organization = "" then
    Except.error (UrlError.configurationError
      "Organization slug is required. Please ensure you are logged in and have selected an organization.")
  else
    let url := "/" ++ jsTrim organization ++ "/" ++ model ++ "/" ++ id
    let qs := serializeParams (resourceParams options)
    Except.ok (if qs = "" then url else url ++ "?" ++ qs)

/-! ## Nested-operations batch executor (useNestedOperations) -/

/-- The mutation function of `useNestedOperations`
(src/hooks/useModel.js:454-457): build
`/<organization>/nested-operations` and hand the operation list to the
transport unchanged.  The source contains no validation and no throw, so
every path produces the request. -/
def nestedMutationFn (organization : String) (operations : List NestedOperation) :
    Except BatchError BatchRequest :=
  Except.ok { url := "/" ++ organization ++ "/nested-operations"
              operations := operations }

/-- `addModel acc m`: JS `Set` insertion order — append `m` unless seen. -/
def addModel (acc : List String) (m : String) : List String :=
  if m ∈ acc then acc else acc ++ [m]

/-- Accumulator form of the affected-model set. -/
def affectedModelsAux (acc : List String) : List NestedOperation → List String
  | [] => acc
  | op :: ops => affectedModelsAux (addModel acc op.model) ops

/-- The models marked for cache invalidation after a successful batch
(src/hooks/useModel.js:458-468):
`new Set(variables.operations.map(op => op.model))`, iterated in
insertion order. -/
def affectedModels (ops : List NestedOperation) : List String :=
  affectedModelsAux [] ops

/-! ## Reference tokens (transcribed from the specification's wording)

The specification describes a static validation pass over reference
tokens of the form `$N.fieldPath`; the definitions below follow that
wording so that the claimed behaviour can be stated and compared with
the source's executor. -/

/-- Modelled from the spec: the referenced index of a reference token
`$<N>.<fieldPath>` (digits `N` followed by a dot and a non-empty field
path); `none` when the string is not a reference token. -/
def refTokenIndex (s : String) : Option Nat :=
  match s.data with
  | '$' :: rest =>
    let ds := rest.takeWhile Char.isDigit
    if ds = [] then none
    else
      match rest.drop ds.length with
      | '.' :: _ :: _ => some (digitsVal ds)
      | _ => none
  | _ => none

/-- Modelled from the spec: every reference index reachable in an
operation's `id` or `data` values. -/
def opRefIndices (op : NestedOperation) : List Nat :=
  (match op.id with
   | none => []
   | some v => (refTokenIndex v).toList)
  ++ op.data.filterMap (fun kv => refTokenIndex kv.2)

/-- Modelled from the spec: a batch contains a forward or self reference
when the operation at index `i` references some index `N ≥ i`. -/
def hasForwardRef (ops : List NestedOperation) : Bool :=
  ops.enum.any (fun p => (opRefIndices p.2).any (fun n => p.1 ≤ n))

/-! ## Specification-side parameter groups

These definitions transcribe §4.1 of the specification ("in this fixed
order, append encoded query parameters only for option groups actually
present"), one definition per group, to be compared with the renderer
embedded from the source. -/

/-- Spec wording: one `filter[<key>]=<value>` pair per entry, insertion
order. -/
def specFilterParams (o : QueryOptions) : List (String × String) :=
  o.filters.map (fun kv => ("filter[" ++ kv.1 ++ "]", kv.2))

/-- Spec wording: single `include=<a,b,c>` parameter if non-empty. -/
def specIncludeParams (o : QueryOptions) : List (String × String) :=
  if o.includes.isEmpty then [] else [("include", joinSep "," o.includes)]

/-- Spec wording: single `sort=<value>` if present (the code's guard:
present and non-empty). -/
def specSortParams (o : QueryOptions) : List (String × String) :=
  match o.sort with
  | none => []
  | some s => if s = "" then [] else [("sort", s)]

/-- Spec wording: single `fields=<a,b,c>` if non-empty. -/
def specFieldsParams (o : QueryOptions) : List (String × String) :=
  if o.fields.isEmpty then [] else [("fields", joinSep "," o.fields)]

/-- Spec wording: single `search=<value>` if non-empty/non-null. -/
def specSearchParams (o : QueryOptions) : List (String × String) :=
  match o.search with
  | none => []
  | some s => if s = "" then [] else [("search", s)]

/-- Spec wording: single `page=<n>` if present (the code's guard:
truthy). -/
def specPageParams (o : QueryOptions) : List (String × String) :=
  match o.page with
  | none => []
  | some n => if n = 0 then [] else [("page", toString n)]

/-- Spec wording: single `per_page=<n>`, preferring `perPage` over
`per_page` when both are given. -/
def specPerPageParams (o : QueryOptions) : List (String × String) :=
  match jsOrInt o.perPage o.per_page with
  | none => []
  | some n => if n = 0 then [] else [("per_page", toString n)]

/-- Render a parameter list as the suffix the builders append: empty
when no parameter is present, otherwise `?` plus the serialization. -/
def renderQuery (ps : List (String × String)) : String :=
  if serializeParams ps = "" then "" else "?" ++ serializeParams ps

/-! ## General helper lemmas -/

theorem strAppendEmpty (s : String) : s ++ "" = s := by
  cases s with
  | mk d => show String.mk (d ++ []) = String.mk d
            rw [List.append_nil]

theorem ifQueryRender (url qs : String) :
    (if qs = "" then url else url ++ "?" ++ qs)
      = url ++ (if qs = "" then "" else "?" ++ qs) := by
  by_cases h : qs = ""
  · rw [if_pos h, if_pos h, strAppendEmpty]
  · rw [if_neg h, if_neg h]
    cases url with
    | mk d =>
      cases qs with
      | mk e => show String.mk ((d ++ "?".data) ++ e) = String.mk (d ++ ("?".data ++ e))
                rw [List.append_assoc]

/-! ## Pagination lemmas -/

theorem jsParseIntZeroLit : jsParseInt "0" = some 0 := by decide

theorem jsTruthyStrFalseIff (o : Option String) :
    jsTruthyStr o = false ↔ (o = none ∨ o = some "") := by
  cases o with
  | none => simp [jsTruthyStr]
  | some s => simp [jsTruthyStr]

/-- Spec-side predicate for the amended bounds claim: the header value,
when present and parseable, carries a non-negative integer. -/
def nonNegB : Option String → Bool
  | none => true
  | some v =>
    match jsParseInt v with
    | none => true
    | some n => decide (0 ≤ n)

theorem jsIntOrGeOne (o : Option String) (d : Int) (hd : 1 ≤ d)
    (h : nonNegB o = true) : 1 ≤ jsIntOr o d := by
  cases o with
  | none => exact hd
  | some v =>
    simp only [jsIntOr, nonNegB] at *
    cases hp : jsParseInt v with
    | none => exact hd
    | some n =>
      rw [hp] at h
      simp only [decide_eq_true_eq] at h
      by_cases hz : n = 0
      · simp [hz, hd]
      · simp only [if_neg hz]
        omega

theorem jsIntOrNonneg (o : Option String) (d : Int) (hd : 0 ≤ d)
    (h : nonNegB o = true) : 0 ≤ jsIntOr o d := by
  cases o with
  | none => exact hd
  | some v =>
    simp only [jsIntOr, nonNegB] at *
    cases hp : jsParseInt v with
    | none => exact hd
    | some n =>
      rw [hp] at h
      simp only [decide_eq_true_eq] at h
      by_cases hz : n = 0
      · simp [hz, hd]
      · simp [if_neg hz, h]

/-- Header fixture with every header carrying the literal string `"0"`. -/
def hdrZeros : Headers :=
  { currentPage := some "0", lastPage := some "0",
    perPage := some "0", total := some "0" }

/-- Header fixture from the specification's parse-fallback test. -/
def hdrMixed : Headers :=
  { currentPage := some "abc", lastPage := some "10",
    perPage := some "20", total := some "50" }

/-! ## C2 -/

/-- C2 counterexample: with only `x-current-page` present and equal to
the literal string `"0"`, the extractor returns `currentPage = 1` (the
default), not `0` as the claim demands: `parseInt('0', 10) || 1`
evaluates to `1` because `0` is falsy. -/
theorem c2_counterexample :
    extractPaginationFromHeaders { currentPage := some "0" }
      = some ⟨1, 1, 15, 0⟩
    ∧ extractPaginationFromHeaders { currentPage := some "0" }
      ≠ some ⟨0, 1, 15, 0⟩ := by
  constructor
  · decide
  · decide

/-- C2 amended: a header equal to the literal string `"0"` falls back to
that field's default (`currentPage`→1, `lastPage`→1, `perPage`→15),
because the parsed `0` is falsy in `parseInt(v,10) || default`; only for
`total`, whose default is itself `0`, does the result equal `0`. -/
theorem c2_zero_header_defaults (r : Headers) :
    (r.currentPage = some "0" →
      (extractPaginationFromHeaders r).map PaginationMeta.currentPage = some 1)
    ∧ (r.lastPage = some "0" →
      (extractPaginationFromHeaders r).map PaginationMeta.lastPage = some 1)
    ∧ (r.perPage = some "0" →
      (extractPaginationFromHeaders r).map PaginationMeta.perPage = some 15)
    ∧ (r.total = some "0" →
      (extractPaginationFromHeaders r).map PaginationMeta.total = some 0) := by
  refine ⟨?_, ?_, ?_, ?_⟩ <;> intro h <;>
    simp [extractPaginationFromHeaders, h, jsTruthyStr, jsIntOr, jsParseIntZeroLit]

/-- C2 witness: with every header equal to `"0"`, the amended theorem
yields `currentPage = 1` and `total = 0` on the concrete fixture. -/
theorem c2_witness :
    (extractPaginationFromHeaders hdrZeros).map PaginationMeta.currentPage = some 1
    ∧ (extractPaginationFromHeaders hdrZeros).map PaginationMeta.total = some 0 :=
  ⟨(c2_zero_header_defaults hdrZeros).1 rfl,
   (c2_zero_header_defaults hdrZeros).2.2.2 rfl⟩

/-! ## C4 -/

theorem extractGuardIff (r : Headers) :
    (!jsTruthyStr r.currentPage && !jsTruthyStr r.lastPage
      && !jsTruthyStr r.perPage && !jsTruthyStr r.total) = true
    ↔ ((r.currentPage = none ∨ r.currentPage = some "")
        ∧ (r.lastPage = none ∨ r.lastPage = some "")
        ∧ (r.perPage = none ∨ r.perPage = some "")
        ∧ (r.total = none ∨ r.total = some "")) := by
  simp only [Bool.and_eq_true, Bool.not_eq_true', jsTruthyStrFalseIff]
  tauto

/-- C4 counterexample: the `x-total` header is present with the (empty,
hence non-numeric) string value `""`, yet the extractor returns `null`,
because the code's guard tests JS falsiness, not key absence. -/
theorem c4_counterexample :
    extractPaginationFromHeaders { total := some "" } = none
    ∧ ({ total := some "" } : Headers).total ≠ none := by
  constructor
  · decide
  · decide

/-- C4 amended: the extractor returns `null` if and only if every one of
the four header lookups is JS-falsy, i.e. absent or the empty string;
any present non-empty value — even a non-numeric one — yields a non-null
metadata object. -/
theorem c4_null_iff_all_falsy (r : Headers) :
    extractPaginationFromHeaders r = none
    ↔ ((r.currentPage = none ∨ r.currentPage = some "")
        ∧ (r.lastPage = none ∨ r.lastPage = some "")
        ∧ (r.perPage = none ∨ r.perPage = some "")
        ∧ (r.total = none ∨ r.total = some "")) := by
  by_cases hg : (!jsTruthyStr r.currentPage && !jsTruthyStr r.lastPage
      && !jsTruthyStr r.perPage && !jsTruthyStr r.total) = true
  · simp only [extractPaginationFromHeaders, if_pos hg]
    simp [(extractGuardIff r).mp hg]
  · simp only [extractPaginationFromHeaders, if_neg hg]
    constructor
    · intro h
      exact absurd h (by simp)
    · intro h
      exact absurd ((extractGuardIff r).mpr h) hg

/-! ## C6 -/

/-- C6 counterexample: with `x-current-page` set to `"-5"`, the extractor
returns `currentPage = -5`, violating the declared bound
`currentPage ≥ 1`. -/
theorem c6_counterexample :
    extractPaginationFromHeaders { currentPage := some "-5" }
      = some ⟨-5, 1, 15, 0⟩
    ∧ ¬ (1 ≤ (-5 : Int)) := by
  constructor
  · decide
  · decide

/-- C6 amended: every non-null metadata object satisfies the declared
bounds (`currentPage ≥ 1`, `lastPage ≥ 1`, `perPage ≥ 1`, `total ≥ 0`)
provided no present header value parses to a negative integer; the code
does not clamp negative numerals. -/
theorem c6_bounds (r : Headers) (m : PaginationMeta)
    (hm : extractPaginationFromHeaders r = some m)
    (h1 : nonNegB r.currentPage = true) (h2 : nonNegB r.lastPage = true)
    (h3 : nonNegB r.perPage = true) (h4 : nonNegB r.total = true) :
    1 ≤ m.currentPage ∧ 1 ≤ m.lastPage ∧ 1 ≤ m.perPage ∧ 0 ≤ m.total := by
  rw [extractPaginationFromHeaders] at hm
  split at hm
  · exact absurd hm (by simp)
  · rw [Option.some.injEq] at hm
    subst hm
    exact ⟨jsIntOrGeOne _ _ (by norm_num) h1,
           jsIntOrGeOne _ _ (by norm_num) h2,
           jsIntOrGeOne _ _ (by norm_num) h3,
           jsIntOrNonneg _ _ (by norm_num) h4⟩

/-- Header fixture with ordinary positive values. -/
def hdrPos : Headers :=
  { currentPage := some "2", lastPage := some "10",
    perPage := some "15", total := some "100" }

/-- C6 witness: on concrete headers `2/10/15/100` the bounds hold. -/
theorem c6_witness :
    1 ≤ (⟨2, 10, 15, 100⟩ : PaginationMeta).currentPage
    ∧ 1 ≤ (⟨2, 10, 15, 100⟩ : PaginationMeta).lastPage
    ∧ 1 ≤ (⟨2, 10, 15, 100⟩ : PaginationMeta).perPage
    ∧ 0 ≤ (⟨2, 10, 15, 100⟩ : PaginationMeta).total :=
  c6_bounds hdrPos ⟨2, 10, 15, 100⟩ (by decide) (by decide) (by decide)
    (by decide) (by decide)

/-! ## C9 -/

/-- C9: in every non-null extraction, a present header whose
`parseInt` fails (NaN) yields that field's own default (`currentPage`→1,
`lastPage`→1, `perPage`→15, `total`→0); and on the specification's
fixture `{currentPage:"abc", lastPage:"10", perPage:"20", total:"50"}`
the result is `{1, 10, 20, 50}` — siblings parse normally. -/
theorem c9_nonnumeric_falls_back :
    (∀ (r : Headers) (m : PaginationMeta),
      extractPaginationFromHeaders r = some m →
        ((∀ v, r.currentPage = some v → jsParseInt v = none → m.currentPage = 1)
        ∧ (∀ v, r.lastPage = some v → jsParseInt v = none → m.lastPage = 1)
        ∧ (∀ v, r.perPage = some v → jsParseInt v = none → m.perPage = 15)
        ∧ (∀ v, r.total = some v → jsParseInt v = none → m.total = 0)))
    ∧ extractPaginationFromHeaders hdrMixed = some ⟨1, 10, 20, 50⟩ := by
  constructor
  · intro r m hm
    rw [extractPaginationFromHeaders] at hm
    split at hm
    · exact absurd hm (by simp)
    · rw [Option.some.injEq] at hm
      subst hm
      refine ⟨?_, ?_, ?_, ?_⟩ <;> intro v hv hp <;> simp [jsIntOr, hv, hp]
  · decide

/-- C9 witness: the theorem applied to the specification's fixture,
discharging the hypotheses at `v = "abc"` for the current-page field. -/
theorem c9_witness :
    jsParseInt "abc" = none ∧ (⟨1, 10, 20, 50⟩ : PaginationMeta).currentPage = 1 :=
  ⟨by decide,
   (c9_nonnumeric_falls_back.1 hdrMixed ⟨1, 10, 20, 50⟩
      c9_nonnumeric_falls_back.2).1 "abc" rfl (by decide)⟩

/-! ## C5 -/

/-- Options fixture from the specification's query-string test. -/
def qoFive : QueryOptions :=
  { filters := [("status", "published"), ("author_id", "1")],
    sort := some "-created_at", page := some 2, perPage := some 20 }

/-- C5: the parameter list appended by `buildQueryUrl` is exactly the
concatenation, in the fixed order filters / include / sort / fields /
search / page / per_page, of the per-group renderings (each empty when
its group is absent); and on the specification's fixture the produced
URL is exactly
`/acme/posts?filter%5Bstatus%5D=published&filter%5Bauthor_id%5D=1&sort=-created_at&page=2&per_page=20`
with no other parameter. -/
theorem c5_param_order :
    (∀ o : QueryOptions,
      queryParams o
        = specFilterParams o ++ specIncludeParams o ++ specSortParams o
          ++ specFieldsParams o ++ specSearchParams o ++ specPageParams o
          ++ specPerPageParams o)
    ∧ buildQueryUrl "posts" "acme" qoFive
        = Except.ok
          "/acme/posts?filter%5Bstatus%5D=published&filter%5Bauthor_id%5D=1&sort=-created_at&page=2&per_page=20" :=
  ⟨fun _ => rfl, rfl⟩

/-! ## C7 -/

/-- C7: a tenant that is empty after trimming (so also the literal empty
string) makes `buildQueryUrl` fail with a `ConfigurationError` before
anything else happens; no URL is produced. -/
theorem c7_empty_tenant (model organization : String) (o : QueryOptions)
    (h : jsTrim organization = "") :
    ∃ msg, buildQueryUrl model organization o
      = Except.error (UrlError.configurationError msg) := by
  by_cases he : organization = ""
  · exact ⟨"Organization slug is required", by
      simp only [buildQueryUrl, if_pos he]⟩
  · exact ⟨"Organization slug is required and must be a non-empty string", by
      simp only [buildQueryUrl, if_neg he, if_pos h]⟩

/-- C7 witness: `buildQueryUrl('posts', '', {})` fails with a
`ConfigurationError`. -/
theorem c7_witness :
    ∃ msg, buildQueryUrl "posts" "" QueryOptions.empty
      = Except.error (UrlError.configurationError msg) :=
  c7_empty_tenant "posts" "" QueryOptions.empty (by decide)

/-! ## C10 -/

/-- C10: for every tenant that is non-empty after trimming, the output
of `buildQueryUrl` begins with `/` + trimmed tenant + `/` + model with
both strings inserted verbatim — path segments are never
percent-encoded, so characters such as `/`, `?` or `&` in the tenant or
model appear unescaped. -/
theorem c10_path_verbatim (model organization : String) (o : QueryOptions)
    (h : jsTrim organization ≠ "") :
    ∃ rest, buildQueryUrl model organization o
      = Except.ok ("/" ++ jsTrim organization ++ "/" ++ model ++ rest) := by
  have he : organization ≠ "" := by
    intro e
    exact h (by rw [e]; rfl)
  refine ⟨if serializeParams (queryParams o) = "" then ""
          else "?" ++ serializeParams (queryParams o), ?_⟩
  simp only [buildQueryUrl, if_neg he, if_neg h]
  rw [ifQueryRender]

/-- C10 witness: tenant `a&b` and model `po/sts?q` appear verbatim and
unescaped in the produced URL. -/
theorem c10_witness :
    ∃ rest, buildQueryUrl "po/sts?q" "a&b" QueryOptions.empty
      = Except.ok ("/" ++ jsTrim "a&b" ++ "/" ++ "po/sts?q" ++ rest) :=
  c10_path_verbatim "po/sts?q" "a&b" QueryOptions.empty (by decide)

/-! ## C3 -/

/-- Options fixture exercising both includes and filters on the
single-resource builder. -/
def qoShow : QueryOptions :=
  { filters := [("status", "published")], includes := ["author"] }

/-- C3 counterexample: with both an include and a filter present, the
single-resource URL renders `include` before `filter[...]` — not
filters first as the claim states. -/
theorem c3_counterexample :
    buildResourceUrl "posts" "1" "acme" qoShow
      = Except.ok "/acme/posts/1?include=author&filter%5Bstatus%5D=published"
    ∧ buildResourceUrl "posts" "1" "acme" qoShow
      ≠ Except.ok "/acme/posts/1?filter%5Bstatus%5D=published&include=author" := by
  constructor
  · rfl
  · intro h
    exact absurd (Except.ok.inj h) (by decide)

/-- C3 amended: the single-resource URL is `/<tenant>/<model>/<id>`
followed by exactly the include / filters / sort / fields groups in that
order (include first), and its output is independent of the search and
pagination options, which the query function never reads. -/
theorem c3_resource_url_shape (model id organization : String)
    (o : QueryOptions) (h : jsTrim organization ≠ "") :
    buildResourceUrl model id organization o
      = Except.ok ("/" ++ jsTrim organization ++ "/" ++ model ++ "/" ++ id
          ++ renderQuery (specIncludeParams o ++ specFilterParams o
              ++ specSortParams o ++ specFieldsParams o))
    ∧ buildResourceUrl model id organization o
      = buildResourceUrl model id organization
          { o with search := none, page := none,
                   perPage := none, per_page := none } := by
  constructor
  · simp only [buildResourceUrl, if_neg h]
    rw [ifQueryRender]
    rfl
  · cases o
    rfl

/-- C3 witness: the amended theorem applied to the concrete fixture. -/
theorem c3_witness :
    buildResourceUrl "posts" "1" "acme" qoShow
      = Except.ok ("/" ++ jsTrim "acme" ++ "/" ++ "posts" ++ "/" ++ "1"
          ++ renderQuery (specIncludeParams qoShow ++ specFilterParams qoShow
              ++ specSortParams qoShow ++ specFieldsParams qoShow))
    ∧ buildResourceUrl "posts" "1" "acme" qoShow
      = buildResourceUrl "posts" "1" "acme"
          { qoShow with search := none, page := none,
                        perPage := none, per_page := none } :=
  c3_resource_url_shape "posts" "1" "acme" qoShow (by decide)

/-! ## C1 -/

/-- The forward-reference batch from the specification's test:
operation 0 references operation 1 through the token `$1.id`. -/
def fwdBatch : List NestedOperation :=
  [{ action := "create", model := "a", data := [("x", "$1.id")] },
   { action := "create", model := "b" }]

/-- C1 counterexample: the batch whose operation 0 carries the forward
reference `$1.id` is not rejected — the mutation function produces the
transport request (an `ok`, never an `InvalidReferenceError`), so the
batch is sent. -/
theorem c1_counterexample :
    hasForwardRef fwdBatch = true
    ∧ nestedMutationFn "acme" fwdBatch
        = Except.ok { url := "/acme/nested-operations", operations := fwdBatch } := by
  constructor
  · decide
  · rfl

/-- C1 amended: the batch executor performs no local reference
validation at all; for every organization and every batch — including
one containing forward or self references — the mutation function hands
the operation list unchanged to the transport as
`POST /<organization>/nested-operations`. -/
theorem c1_no_local_validation (organization : String)
    (ops : List NestedOperation) :
    nestedMutationFn organization ops
      = Except.ok { url := "/" ++ organization ++ "/nested-operations",
                    operations := ops } :=
  rfl

/-! ## C8 -/

theorem addModelMem (acc : List String) (x m : String) :
    m ∈ addModel acc x ↔ m ∈ acc ∨ m = x := by
  rw [addModel]
  split
  case isTrue hx =>
    constructor
    · exact Or.inl
    · rintro (hm | rfl)
      · exact hm
      · exact hx
  case isFalse hx =>
    simp [List.mem_append]

theorem addModelNodup (acc : List String) (x : String) (h : acc.Nodup) :
    (addModel acc x).Nodup := by
  rw [addModel]
  split
  case isTrue hx => exact h
  case isFalse hx =>
    refine List.Nodup.append h (List.nodup_singleton x) ?_
    simp [List.disjoint_singleton]
    exact hx

theorem affectedModelsAuxMem (ops : List NestedOperation) :
    ∀ (acc : List String) (m : String),
      m ∈ affectedModelsAux acc ops
        ↔ m ∈ acc ∨ m ∈ ops.map NestedOperation.model := by
  induction ops with
  | nil => intro acc m; simp [affectedModelsAux]
  | cons op ops ih =>
    intro acc m
    rw [affectedModelsAux, ih, addModelMem]
    simp [or_assoc]

theorem affectedModelsAuxNodup (ops : List NestedOperation) :
    ∀ acc : List String, acc.Nodup → (affectedModelsAux acc ops).Nodup := by
  induction ops with
  | nil => intro acc h; exact h
  | cons op ops ih =>
    intro acc h
    exact ih _ (addModelNodup acc op.model h)

/-- The batch fixture touching the model sequence
`['blogs', 'posts', 'blogs']`. -/
def tripleBatch : List NestedOperation :=
  [{ action := "create", model := "blogs", data := [("title", "Blog")] },
   { action := "create", model := "posts", data := [("title", "Post")] },
   { action := "update", model := "blogs", id := some "1",
     data := [("title", "Updated")] }]

/-- C8: after a successful batch, the models marked for cache
invalidation are exactly the distinct model names of the operation list
— each distinct model counted exactly once, an absent model zero times —
and on the fixture touching `['blogs', 'posts', 'blogs']` the marked
list is exactly `['blogs', 'posts']`. -/
theorem c8_invalidation_dedup :
    (∀ (ops : List NestedOperation) (m : String),
      List.count m (affectedModels ops)
        = if m ∈ ops.map NestedOperation.model then 1 else 0)
    ∧ affectedModels tripleBatch = ["blogs", "posts"] := by
  constructor
  · intro ops m
    have hnd : (affectedModels ops).Nodup :=
      affectedModelsAuxNodup ops [] List.nodup_nil
    by_cases h : m ∈ ops.map NestedOperation.model
    · rw [if_pos h]
      have hmem : m ∈ affectedModels ops :=
        (affectedModelsAuxMem ops [] m).mpr (Or.inr h)
      exact List.count_eq_one_of_mem hnd hmem
    · rw [if_neg h]
      refine List.count_eq_zero.mpr ?_
      intro hmem
      rcases (affectedModelsAuxMem ops [] m).mp hmem with hacc | hmap
      · exact (List.not_mem_nil m) hacc
      · exact h hmap
  · decide
